import Mathlib

/-!
A shallow embedding of the NCT610XD Super-I/O GPIO driver
(`src/gpio-nct610xd.c`) and proofs about it.

Hardware model.  The chip sits behind a two-port index/data window at some
base address: a write to the index port (`outb(v, base)`) latches a register
index; a write to the data port (`outb(v, base + 1)`) stores the written byte
into the latched register through a per-register writable-bit mask `wmask`
(with `wmask r = 0xFF` a read of register `r` returns exactly the last byte
written to it, which is the read model the spec's round-trip properties
assume; a mask with cleared bits models hardware bits that do not stick,
which is what the driver's GPIO-enable write-then-verify guards against);
a read of the data port (`inb(base + 1)`) returns the latched register's
byte.  The exclusive muxed region of `request_muxed_region` /
`release_region` is modelled by two booleans: `regionBusy` (the region is
owned elsewhere) and `held` (owned by this driver).  Every port transaction
and region acquire/release is recorded in an event trace.
-/

/-- One transaction on the Super-I/O port pair, or on the exclusive region. -/
inductive PortEvent where
  | writeIndex : Nat → PortEvent
  | writeData : Nat → PortEvent
  | readData : Nat → PortEvent
  | acquireRegion : PortEvent
  | releaseRegion : PortEvent
deriving DecidableEq, Repr

/-- The hardware-plus-lease state threaded through every embedded function. -/
structure SioState where
  /-- the exclusive region is owned by some other driver -/
  regionBusy : Bool
  /-- the exclusive region is owned by this driver -/
  held : Bool
  /-- the register index latched by the last index-port write -/
  idx : Nat
  /-- the register file (bytes; reads mask to 8 bits) -/
  regs : Nat → Nat
  /-- per-register writable-bit mask (0xFF everywhere: reads return the last
  value written) -/
  wmask : Nat → Nat
  /-- the trace of port / region transactions so far -/
  events : List PortEvent

/-- `outb(v, base)`: latch a register index. -/
def outbIndex (s : SioState) (v : Nat) : SioState :=
  { s with idx := v % 256, events := s.events ++ [PortEvent.writeIndex (v % 256)] }

/-- `outb(v, base + 1)`: store into the latched register, through the
register's writable-bit mask. -/
def outbData (s : SioState) (v : Nat) : SioState :=
  let m := s.wmask s.idx % 256
  let nv := ((v % 256) &&& m) ||| ((s.regs s.idx % 256) &&& (255 ^^^ m))
  { s with regs := fun r => if r = s.idx then nv else s.regs r,
           events := s.events ++ [PortEvent.writeData (v % 256)] }

/-- `inb(base + 1)`: the latched register's byte. -/
def inbData (s : SioState) : Nat × SioState :=
  let v := s.regs s.idx % 256
  (v, { s with events := s.events ++ [PortEvent.readData v] })

/-! Register and protocol constants of the source. -/

/-- `#define SIO_LDSEL 0x07` (logical device select) -/
def SIO_LDSEL : Nat := 0x07
/-- `#define SIO_CHIPID 0x20` (chip id, 2 bytes) -/
def SIO_CHIPID : Nat := 0x20
/-- `#define SIO_GPIO_ENABLE 0x30` (GPIO enable) -/
def SIO_GPIO_ENABLE : Nat := 0x30
/-- `#define SIO_LD_GPIO 0x07` (GPIO logical device) -/
def SIO_LD_GPIO : Nat := 0x07
/-- `#define SIO_UNLOCK_KEY 0x87` -/
def SIO_UNLOCK_KEY : Nat := 0x87
/-- `#define SIO_LOCK_KEY 0xAA` -/
def SIO_LOCK_KEY : Nat := 0xAA
/-- `#define SIO_NCT610XD_ID 0xd282` (chip id) -/
def SIO_NCT610XD_ID : Nat := 0xd282

/-- errno `EBUSY` (the driver returns `-EBUSY`). -/
def EBUSY : Int := 16
/-- errno `ENODEV` (the driver returns `-ENODEV`). -/
def ENODEV : Int := 19
/-- errno `EPERM` (note: `nct610xd_find` assigns it un-negated). -/
def EPERM : Int := 1

/-! The Super-I/O access functions of the source. -/

/-- `superio_inb(base, reg)`: `outb(reg, base); return inb(base + 1);` -/
def superio_inb (s : SioState) (reg : Nat) : Nat × SioState :=
  inbData (outbIndex s reg)

/-- `superio_inw(base, reg)`: two byte reads at `reg`, `reg + 1`, assembled
high byte first. -/
def superio_inw (s : SioState) (reg : Nat) : Nat × SioState :=
  let s1 := outbIndex s reg
  let (hi, s2) := inbData s1
  let s3 := outbIndex s2 (reg + 1)
  let (lo, s4) := inbData s3
  ((hi <<< 8) ||| lo, s4)

/-- `superio_outb(base, reg, val)`: `outb(reg, base); outb(val, base + 1);` -/
def superio_outb (s : SioState) (reg val : Nat) : SioState :=
  outbData (outbIndex s reg) val

/-- `superio_enter(base)`: `request_muxed_region` or `-EBUSY`; on success the
unlock key is written to the index port twice and 0 is returned. -/
def superio_enter (s : SioState) : Int × SioState :=
  if s.regionBusy || s.held then (-EBUSY, s)
  else
    let s1 : SioState :=
      { s with held := true, events := s.events ++ [PortEvent.acquireRegion] }
    let s2 := outbIndex s1 SIO_UNLOCK_KEY
    let s3 := outbIndex s2 SIO_UNLOCK_KEY
    (0, s3)

/-- `superio_select(base, ld)`: write `SIO_LDSEL` to the index port, the
logical-device id to the data port. -/
def superio_select (s : SioState) (ld : Nat) : SioState :=
  outbData (outbIndex s SIO_LDSEL) ld

/-- `superio_exit(base)`: write the lock key to the index port, release the
region. -/
def superio_exit (s : SioState) : SioState :=
  let s1 := outbIndex s SIO_LOCK_KEY
  { s1 with held := false, events := s1.events ++ [PortEvent.releaseRegion] }

/-! The GPIO bank register model and pin operations of the source. -/

/-- `#define gpio_dir(base) (base + 0)` -/
def gpio_dir (base : Nat) : Nat := base + 0

/-- `#define gpio_data(base) (base + 1)` -/
def gpio_data (base : Nat) : Nat := base + 1

/-- The one configured bank's register-block base (`NCT610XD_GPIO_BANK(40, 8,
0xF0)`). -/
def bankRegbase : Nat := 0xF0

/-- The one configured bank's pin count. -/
def bankNgpio : Nat := 8

/-- The one configured bank's logical pin-number base. -/
def bankBase : Nat := 40

/-- `nct610xd_gpio_get_direction`: enter, select the GPIO logical device,
read the direction register, exit; return `dir & 1 << offset` (the raw
masked byte, not normalized). -/
def nct610xd_gpio_get_direction (s : SioState) (regbase offset : Nat) :
    Int × SioState :=
  let (err, s1) := superio_enter s
  if err ≠ 0 then (err, s1)
  else
    let s2 := superio_select s1 SIO_LD_GPIO
    let (dir, s3) := superio_inb s2 (gpio_dir regbase)
    let s4 := superio_exit s3
    (Int.ofNat (dir &&& (1 <<< offset)), s4)

/-- `nct610xd_gpio_direction_in`: read the direction register, set bit
`offset` (u8 arithmetic), write it back. -/
def nct610xd_gpio_direction_in (s : SioState) (regbase offset : Nat) :
    Int × SioState :=
  let (err, s1) := superio_enter s
  if err ≠ 0 then (err, s1)
  else
    let s2 := superio_select s1 SIO_LD_GPIO
    let (dir0, s3) := superio_inb s2 (gpio_dir regbase)
    let dir := (dir0 ||| (1 <<< offset)) % 256
    let s4 := superio_outb s3 (gpio_dir regbase) dir
    let s5 := superio_exit s4
    (0, s5)

/-- `nct610xd_gpio_get`: read the data register, return `!!(data & 1 <<
offset)` (normalized to 0 or 1). -/
def nct610xd_gpio_get (s : SioState) (regbase offset : Nat) : Int × SioState :=
  let (err, s1) := superio_enter s
  if err ≠ 0 then (err, s1)
  else
    let s2 := superio_select s1 SIO_LD_GPIO
    let (data, s3) := superio_inb s2 (gpio_data regbase)
    let s4 := superio_exit s3
    (if data &&& (1 <<< offset) ≠ 0 then 1 else 0, s4)

/-- `nct610xd_gpio_direction_out`: read-modify-write the data register per
`value`, then read-modify-write the direction register clearing bit
`offset`.  `x &&& (255 ^^^ ((1 <<< off) &&& 255))` is the u8 image of C's
`x &= ~(1 << off)` on a `u8` lvalue. -/
def nct610xd_gpio_direction_out (s : SioState) (regbase offset : Nat)
    (value : Int) : Int × SioState :=
  let (err, s1) := superio_enter s
  if err ≠ 0 then (err, s1)
  else
    let s2 := superio_select s1 SIO_LD_GPIO
    let (d0, s3) := superio_inb s2 (gpio_data regbase)
    let data_out :=
      if value ≠ 0 then (d0 ||| (1 <<< offset)) % 256
      else d0 &&& (255 ^^^ ((1 <<< offset) &&& 255))
    let s4 := superio_outb s3 (gpio_data regbase) data_out
    let (dir0, s5) := superio_inb s4 (gpio_dir regbase)
    let dir := dir0 &&& (255 ^^^ ((1 <<< offset) &&& 255))
    let s6 := superio_outb s5 (gpio_dir regbase) dir
    let s7 := superio_exit s6
    (0, s7)

/-- `nct610xd_gpio_set`: read-modify-write the data register per `value`.
The C function returns `void`: on `superio_enter` failure it returns with
the error discarded, and its caller receives no value either way. -/
def nct610xd_gpio_set (s : SioState) (regbase offset : Nat) (value : Int) :
    SioState :=
  let (err, s1) := superio_enter s
  if err ≠ 0 then s1
  else
    let s2 := superio_select s1 SIO_LD_GPIO
    let (d0, s3) := superio_inb s2 (gpio_data regbase)
    let data_out :=
      if value ≠ 0 then (d0 ||| (1 <<< offset)) % 256
      else d0 &&& (255 ^^^ ((1 <<< offset) &&& 255))
    let s4 := superio_outb s3 (gpio_data regbase) data_out
    superio_exit s4

/-! Discovery. -/

/-- `enum chips` -/
inductive Chips where
  | nct610xd
deriving DecidableEq, Repr

/-- `struct nct610xd_sio` (`type` is `none` before discovery sets it). -/
structure NctSio where
  addr : Nat
  type : Option Chips
deriving DecidableEq, Repr

/-- `nct610xd_find(addr, sio)`: enter, read the 16-bit chip id, on mismatch
exit with `-ENODEV`; on match record type and address, re-read the id (the
`pr_info` argument is a real pair of port transactions), select the GPIO
logical device, read-modify-write `SIO_GPIO_ENABLE` ORing in `0x10`, read it
back; if bit `0x10` did not stick, exit with `err = EPERM` (assigned as a
positive value); otherwise exit with 0. -/
def nct610xd_find (addr : Nat) (sio : NctSio) (s : SioState) :
    Int × NctSio × SioState :=
  let (err, s1) := superio_enter s
  if err ≠ 0 then (err, sio, s1)
  else
    let (devid, s2) := superio_inw s1 SIO_CHIPID
    if devid = SIO_NCT610XD_ID then
      let sio2 : NctSio := { sio with type := some Chips.nct610xd, addr := addr }
      let (_, s3) := superio_inw s2 SIO_CHIPID
      let s4 := superio_select s3 SIO_LD_GPIO
      let (g0, s5) := superio_inb s4 SIO_GPIO_ENABLE
      let gpio_cfg := (g0 ||| 0x10) % 256
      let s6 := superio_outb s5 SIO_GPIO_ENABLE gpio_cfg
      let (g1, s7) := superio_inb s6 SIO_GPIO_ENABLE
      if g1 &&& 0x10 = 0 then (EPERM, sio2, superio_exit s7)
      else (0, sio2, superio_exit s7)
    else (-ENODEV, sio, superio_exit s2)

/-- The discovery half of `nct610xd_gpio_init`: `nct610xd_find(0x2e, &sio)`
then, only when that failed, `nct610xd_find(0x4e, &sio)`; `-ENODEV` when both
fail.  The platform driver/device registration that follows a successful find
is external glue (spec section 6) and is abstracted as succeeding, so on
success the function returns 0 together with the found-chip record handed to
registration; on overall failure it returns `none`: nothing is registered.
The two `SioState` arguments are the hardware behind base addresses 0x2e and
0x4e. -/
def nct610xd_gpio_init (s2e s4e : SioState) : Int × Option NctSio :=
  let sio0 : NctSio := { addr := 0, type := none }
  let (e1, sio1, _) := nct610xd_find 0x2e sio0 s2e
  if e1 ≠ 0 then
    let (e2, sio2, _) := nct610xd_find 0x4e sio1 s4e
    if e2 ≠ 0 then (-ENODEV, none)
    else (0, some sio2)
  else (0, some sio1)

/-! Observers over the model used by the claims. -/

/-- The (register, value) pairs written through the data port along a trace,
given the register index latched when the trace starts. -/
def regWritesFrom (i : Nat) : List PortEvent → List (Nat × Nat)
  | [] => []
  | PortEvent.writeIndex v :: es => regWritesFrom v es
  | PortEvent.writeData v :: es => (i, v) :: regWritesFrom i es
  | _ :: es => regWritesFrom i es

/-- The 16-bit chip id the driver would read from state `s` (two bytes from
index `SIO_CHIPID`, high byte first). -/
def chipId (s : SioState) : Nat := (superio_inw s SIO_CHIPID).1

/-- The trace ends with the lock-key write followed by the region release,
i.e. with exactly what `superio_exit` emits. -/
def endsWithExit (l : List PortEvent) : Prop :=
  ∃ E, l = E ++ [PortEvent.writeIndex SIO_LOCK_KEY, PortEvent.releaseRegion]

/-- Session discipline from `s` to the returned state `t`: the region is not
held on return, and when the region was free on entry (so `superio_enter`
succeeded) the transaction trace ends with the lock-key write followed by the
region release — `superio_exit` ran last. -/
def sessionBalanced (s t : SioState) : Prop :=
  t.held = false ∧ (s.regionBusy = false → endsWithExit t.events)

/-- The five pin operations the driver registers with the GPIO framework. -/
inductive PinOp where
  | getDirection
  | directionIn
  | getValue
  | directionOut
  | setValue
deriving DecidableEq, Repr

/-- What a pin operation returns to its caller: `some` the C `int` return
value, and `none` for `nct610xd_gpio_set`, whose C return type is `void`
(its caller receives no value; the state effect still happens). -/
def pinOpResult (op : PinOp) (s : SioState) (regbase offset : Nat)
    (value : Int) : Option Int :=
  match op with
  | PinOp.getDirection => some (nct610xd_gpio_get_direction s regbase offset).1
  | PinOp.directionIn => some (nct610xd_gpio_direction_in s regbase offset).1
  | PinOp.getValue => some (nct610xd_gpio_get s regbase offset).1
  | PinOp.directionOut =>
      some (nct610xd_gpio_direction_out s regbase offset value).1
  | PinOp.setValue =>
      let _ := nct610xd_gpio_set s regbase offset value
      none

/-- An all-writable, all-zero, free hardware state. -/
def freeSt : SioState :=
  { regionBusy := false, held := false, idx := 0,
    regs := fun _ => 0, wmask := fun _ => 255, events := [] }

/-- A state whose exclusive region is owned elsewhere. -/
def busySt : SioState :=
  { regionBusy := true, held := false, idx := 0,
    regs := fun _ => 0, wmask := fun _ => 255, events := [] }

/-- A free state that presents chip id `0xd282` but whose GPIO-enable bit
`0x10` is read-only and clear: the driver's write-then-verify of that bit
cannot stick. -/
def enableStuckSt : SioState :=
  { regionBusy := false, held := false, idx := 0,
    regs := fun r => if r = 0x20 then 0xd2 else if r = 0x21 then 0x82 else 0,
    wmask := fun r => if r = 0x30 then 0xEF else 255,
    events := [] }

/-- A free state that presents chip id `0xd282` with every register fully
writable. -/
def chipSt : SioState :=
  { regionBusy := false, held := false, idx := 0,
    regs := fun r => if r = 0x20 then 0xd2 else if r = 0x21 then 0x82 else 0,
    wmask := fun _ => 255,
    events := [] }

/-! Shared lemmas: 8-bit facts (decided over the finite domain) and trace
shape lemmas. -/

set_option maxRecDepth 8192

theorem mod256_lt (x : Nat) : x % 256 < 256 := Nat.mod_lt _ (by norm_num)

theorem and255_lt : ∀ x < 256, x &&& 255 = x := by decide

theorem bit_set_ne :
    ∀ d < 256, ∀ p < 8, ((d ||| (1 <<< p)) % 256) &&& (1 <<< p) ≠ 0 := by
  decide

theorem bit_clear_eq :
    ∀ d < 256, ∀ p < 8,
      ((d &&& (255 ^^^ ((1 <<< p) &&& 255))) % 256) &&& (1 <<< p) = 0 := by
  decide

theorem testBit_and_pow :
    ∀ d < 256, ∀ p < 8, d.testBit p = true → d &&& (1 <<< p) = 2 ^ p := by
  decide

theorem or16_ne : ∀ g < 256, ((g ||| 16) % 256) &&& 16 ≠ 0 := by decide

theorem or_preserves_testBit :
    ∀ d < 256, ∀ p < 8, ∀ j < 8, j ≠ p →
      ((d ||| (1 <<< p)) % 256).testBit j = d.testBit j := by
  decide

theorem and_preserves_testBit :
    ∀ d < 256, ∀ p < 8, ∀ j < 8, j ≠ p →
      ((d &&& (255 ^^^ ((1 <<< p) &&& 255))) % 256).testBit j = d.testBit j := by
  decide

theorem endsWithExit_base :
    endsWithExit [PortEvent.writeIndex SIO_LOCK_KEY, PortEvent.releaseRegion] :=
  ⟨[], rfl⟩

theorem endsWithExit_cons (e : PortEvent) {l : List PortEvent}
    (h : endsWithExit l) : endsWithExit (e :: l) := by
  obtain ⟨E, rfl⟩ := h
  exact ⟨e :: E, rfl⟩

theorem endsWithExit_append (l : List PortEvent) {m : List PortEvent}
    (h : endsWithExit m) : endsWithExit (l ++ m) := by
  obtain ⟨E, rfl⟩ := h
  exact ⟨l ++ E, by simp⟩

/-- C2: for every pin offset 0..7 and every level in {0,1},
`nct610xd_gpio_direction_out(offset, level)` followed by
`nct610xd_gpio_get(offset)` on the configured bank returns `level`, in the
hardware model where a data-register read returns the last value written
(`wmask` all ones on the data register). -/
theorem C2_direction_out_get_roundtrip (s : SioState) (off : Nat) (v : Int)
    (hoff : off < 8) (hb : s.regionBusy = false) (hh : s.held = false)
    (hw : s.wmask (gpio_data bankRegbase) = 255) (hv : v = 0 ∨ v = 1) :
    (nct610xd_gpio_get (nct610xd_gpio_direction_out s bankRegbase off v).2
      bankRegbase off).1 = v := by
  have hw' : s.wmask 241 = 255 := hw
  rcases hv with hv | hv <;> subst hv <;>
    simp [nct610xd_gpio_direction_out, nct610xd_gpio_get, superio_enter,
      superio_select, superio_inb, superio_outb, superio_exit, outbIndex,
      outbData, inbData, gpio_dir, gpio_data, bankRegbase, SIO_LD_GPIO,
      SIO_LDSEL, SIO_UNLOCK_KEY, SIO_LOCK_KEY, EBUSY, hb, hh, hw',
      Nat.xor_self, Nat.and_zero, Nat.or_zero, and255_lt _ (mod256_lt _)]
  · exact bit_clear_eq _ (mod256_lt _) off hoff
  · exact bit_set_ne _ (mod256_lt _) off hoff

/-- C2 witness: at the all-zero free state, writing level 1 to pin 0 and
reading it back yields 1. -/
theorem C2_direction_out_get_roundtrip_witness :
    (nct610xd_gpio_get (nct610xd_gpio_direction_out freeSt bankRegbase 0 1).2
      bankRegbase 0).1 = 1 :=
  C2_direction_out_get_roundtrip freeSt 0 1 (by decide) rfl rfl rfl
    (Or.inr rfl)

/-- C3: `nct610xd_gpio_set` never modifies the direction register, and the
only register writes it performs are the logical-device select and the data
register. -/
theorem C3_set_preserves_direction (s : SioState) (off : Nat) (v : Int)
    (he : s.events = []) :
    (nct610xd_gpio_set s bankRegbase off v).regs (gpio_dir bankRegbase) =
      s.regs (gpio_dir bankRegbase) ∧
    ∀ pr ∈ regWritesFrom s.idx (nct610xd_gpio_set s bankRegbase off v).events,
      pr.1 = SIO_LDSEL ∨ pr.1 = gpio_data bankRegbase := by
  cases hc : s.regionBusy || s.held
  · refine ⟨?_, ?_⟩
    · simp [nct610xd_gpio_set, superio_enter, superio_select, superio_inb,
        superio_outb, superio_exit, outbIndex, outbData, inbData, gpio_dir,
        gpio_data, bankRegbase, SIO_LD_GPIO, SIO_LDSEL, SIO_UNLOCK_KEY,
        SIO_LOCK_KEY, EBUSY, hc]
    · intro pr hpr
      simp [nct610xd_gpio_set, superio_enter, superio_select, superio_inb,
        superio_outb, superio_exit, outbIndex, outbData, inbData, gpio_dir,
        gpio_data, bankRegbase, SIO_LD_GPIO, SIO_LDSEL, SIO_UNLOCK_KEY,
        SIO_LOCK_KEY, EBUSY, hc, he, regWritesFrom] at hpr
      rcases hpr with rfl | rfl
      · left; rfl
      · right; rfl
  · refine ⟨?_, ?_⟩
    · simp [nct610xd_gpio_set, superio_enter, EBUSY, hc]
    · intro pr hpr
      simp [nct610xd_gpio_set, superio_enter, EBUSY, hc, he,
        regWritesFrom] at hpr

/-- C3 witness: a concrete instance at the all-zero free state, pin 3,
level 1. -/
theorem C3_set_preserves_direction_witness :
    (nct610xd_gpio_set freeSt bankRegbase 3 1).regs (gpio_dir bankRegbase) =
      freeSt.regs (gpio_dir bankRegbase) ∧
    ∀ pr ∈ regWritesFrom freeSt.idx
        (nct610xd_gpio_set freeSt bankRegbase 3 1).events,
      pr.1 = SIO_LDSEL ∨ pr.1 = gpio_data bankRegbase :=
  C3_set_preserves_direction freeSt 3 1 rfl

/-- C4: `nct610xd_gpio_direction_out` performs, after the device select,
exactly two register writes in order: the data register with bit `offset`
set when `value` is nonzero and cleared when it is 0 (other bits preserved),
then the direction register with bit `offset` cleared (other bits
preserved). -/
theorem C4_direction_out_write_order (s : SioState) (off : Nat) (v : Int)
    (hoff : off < 8) (hb : s.regionBusy = false) (hh : s.held = false)
    (he : s.events = []) :
    ∃ dv dirv,
      regWritesFrom s.idx
          (nct610xd_gpio_direction_out s bankRegbase off v).2.events =
        [(SIO_LDSEL, SIO_LD_GPIO), (gpio_data bankRegbase, dv),
         (gpio_dir bankRegbase, dirv)] ∧
      (v ≠ 0 → dv &&& (1 <<< off) ≠ 0) ∧
      (v = 0 → dv &&& (1 <<< off) = 0) ∧
      dirv &&& (1 <<< off) = 0 ∧
      (∀ j < 8, j ≠ off →
        dv.testBit j = (s.regs (gpio_data bankRegbase) % 256).testBit j) ∧
      (∀ j < 8, j ≠ off →
        dirv.testBit j = (s.regs (gpio_dir bankRegbase) % 256).testBit j) := by
  refine ⟨(if v = 0 then s.regs (gpio_data bankRegbase) % 256 &&&
        (255 ^^^ 1 <<< off &&& 255)
      else (s.regs (gpio_data bankRegbase) % 256 ||| 1 <<< off) % 256) % 256,
    (s.regs (gpio_dir bankRegbase) % 256 &&& (255 ^^^ 1 <<< off &&& 255)) % 256,
    ?_, ?_, ?_, ?_, ?_, ?_⟩
  · simp [nct610xd_gpio_direction_out, superio_enter, superio_select,
      superio_inb, superio_outb, superio_exit, outbIndex, outbData, inbData,
      gpio_dir, gpio_data, bankRegbase, SIO_LD_GPIO, SIO_LDSEL,
      SIO_UNLOCK_KEY, SIO_LOCK_KEY, EBUSY, hb, hh, he, regWritesFrom]
  · intro hv
    rw [if_neg hv, Nat.mod_mod_of_dvd _ dvd_rfl]
    exact bit_set_ne _ (mod256_lt _) off hoff
  · intro hv
    rw [if_pos hv]
    exact bit_clear_eq _ (mod256_lt _) off hoff
  · exact bit_clear_eq _ (mod256_lt _) off hoff
  · intro j hj hjo
    rcases Decidable.em (v = 0) with hv | hv
    · rw [if_pos hv]
      exact and_preserves_testBit _ (mod256_lt _) off hoff j hj hjo
    · rw [if_neg hv, Nat.mod_mod_of_dvd _ dvd_rfl]
      exact or_preserves_testBit _ (mod256_lt _) off hoff j hj hjo
  · intro j hj hjo
    exact and_preserves_testBit _ (mod256_lt _) off hoff j hj hjo

/-- C4 witness: the spec's concrete instance — pin 40 is offset 0 with value
1: the data register 0xF1 is written with bit 0 set, then the direction
register 0xF0 with bit 0 cleared. -/
theorem C4_direction_out_write_order_witness :
    ∃ dv dirv,
      regWritesFrom freeSt.idx
          (nct610xd_gpio_direction_out freeSt bankRegbase 0 1).2.events =
        [(SIO_LDSEL, SIO_LD_GPIO), (gpio_data bankRegbase, dv),
         (gpio_dir bankRegbase, dirv)] ∧
      ((1 : Int) ≠ 0 → dv &&& (1 <<< 0) ≠ 0) ∧
      ((1 : Int) = 0 → dv &&& (1 <<< 0) = 0) ∧
      dirv &&& (1 <<< 0) = 0 ∧
      (∀ j < 8, j ≠ 0 →
        dv.testBit j = (freeSt.regs (gpio_data bankRegbase) % 256).testBit j) ∧
      (∀ j < 8, j ≠ 0 →
        dirv.testBit j =
          (freeSt.regs (gpio_dir bankRegbase) % 256).testBit j) :=
  C4_direction_out_write_order freeSt 0 1 (by decide) rfl rfl rfl

theorem balanced_get_direction (s : SioState) (rb off : Nat)
    (hh : s.held = false) :
    sessionBalanced s (nct610xd_gpio_get_direction s rb off).2 := by
  cases hb : s.regionBusy
  · refine ⟨?_, fun _ => ?_⟩
    · simp [nct610xd_gpio_get_direction, superio_enter, superio_select,
        superio_inb, superio_exit, outbIndex, outbData, inbData,
        SIO_LD_GPIO, SIO_LDSEL, SIO_UNLOCK_KEY, SIO_LOCK_KEY, EBUSY, hb, hh]
    · simp [nct610xd_gpio_get_direction, superio_enter, superio_select,
        superio_inb, superio_exit, outbIndex, outbData, inbData,
        SIO_LD_GPIO, SIO_LDSEL, SIO_UNLOCK_KEY, SIO_LOCK_KEY, EBUSY, hb, hh]
      exact endsWithExit_append _ (by repeat first
        | exact endsWithExit_base
        | apply endsWithExit_cons)
  · exact ⟨by simp [nct610xd_gpio_get_direction, superio_enter, EBUSY, hb, hh],
      fun hfree => by rw [hb] at hfree; exact Bool.noConfusion hfree⟩

theorem balanced_direction_in (s : SioState) (rb off : Nat)
    (hh : s.held = false) :
    sessionBalanced s (nct610xd_gpio_direction_in s rb off).2 := by
  cases hb : s.regionBusy
  · refine ⟨?_, fun _ => ?_⟩
    · simp [nct610xd_gpio_direction_in, superio_enter, superio_select,
        superio_inb, superio_outb, superio_exit, outbIndex, outbData, inbData,
        SIO_LD_GPIO, SIO_LDSEL, SIO_UNLOCK_KEY, SIO_LOCK_KEY, EBUSY, hb, hh]
    · simp [nct610xd_gpio_direction_in, superio_enter, superio_select,
        superio_inb, superio_outb, superio_exit, outbIndex, outbData, inbData,
        SIO_LD_GPIO, SIO_LDSEL, SIO_UNLOCK_KEY, SIO_LOCK_KEY, EBUSY, hb, hh]
      exact endsWithExit_append _ (by repeat first
        | exact endsWithExit_base
        | apply endsWithExit_cons)
  · exact ⟨by simp [nct610xd_gpio_direction_in, superio_enter, EBUSY, hb, hh],
      fun hfree => by rw [hb] at hfree; exact Bool.noConfusion hfree⟩

theorem balanced_get (s : SioState) (rb off : Nat) (hh : s.held = false) :
    sessionBalanced s (nct610xd_gpio_get s rb off).2 := by
  cases hb : s.regionBusy
  · refine ⟨?_, fun _ => ?_⟩
    · simp [nct610xd_gpio_get, superio_enter, superio_select,
        superio_inb, superio_exit, outbIndex, outbData, inbData,
        SIO_LD_GPIO, SIO_LDSEL, SIO_UNLOCK_KEY, SIO_LOCK_KEY, EBUSY, hb, hh]
    · simp [nct610xd_gpio_get, superio_enter, superio_select,
        superio_inb, superio_exit, outbIndex, outbData, inbData,
        SIO_LD_GPIO, SIO_LDSEL, SIO_UNLOCK_KEY, SIO_LOCK_KEY, EBUSY, hb, hh]
      exact endsWithExit_append _ (by repeat first
        | exact endsWithExit_base
        | apply endsWithExit_cons)
  · exact ⟨by simp [nct610xd_gpio_get, superio_enter, EBUSY, hb, hh],
      fun hfree => by rw [hb] at hfree; exact Bool.noConfusion hfree⟩

theorem balanced_direction_out (s : SioState) (rb off : Nat) (v : Int)
    (hh : s.held = false) :
    sessionBalanced s (nct610xd_gpio_direction_out s rb off v).2 := by
  cases hb : s.regionBusy
  · refine ⟨?_, fun _ => ?_⟩
    · simp [nct610xd_gpio_direction_out, superio_enter, superio_select,
        superio_inb, superio_outb, superio_exit, outbIndex, outbData, inbData,
        SIO_LD_GPIO, SIO_LDSEL, SIO_UNLOCK_KEY, SIO_LOCK_KEY, EBUSY, hb, hh]
    · simp [nct610xd_gpio_direction_out, superio_enter, superio_select,
        superio_inb, superio_outb, superio_exit, outbIndex, outbData, inbData,
        SIO_LD_GPIO, SIO_LDSEL, SIO_UNLOCK_KEY, SIO_LOCK_KEY, EBUSY, hb, hh]
      exact endsWithExit_append _ (by repeat first
        | exact endsWithExit_base
        | apply endsWithExit_cons)
  · exact ⟨by simp [nct610xd_gpio_direction_out, superio_enter, EBUSY, hb, hh],
      fun hfree => by rw [hb] at hfree; exact Bool.noConfusion hfree⟩

theorem balanced_set (s : SioState) (rb off : Nat) (v : Int)
    (hh : s.held = false) :
    sessionBalanced s (nct610xd_gpio_set s rb off v) := by
  cases hb : s.regionBusy
  · refine ⟨?_, fun _ => ?_⟩
    · simp [nct610xd_gpio_set, superio_enter, superio_select,
        superio_inb, superio_outb, superio_exit, outbIndex, outbData, inbData,
        SIO_LD_GPIO, SIO_LDSEL, SIO_UNLOCK_KEY, SIO_LOCK_KEY, EBUSY, hb, hh]
    · simp [nct610xd_gpio_set, superio_enter, superio_select,
        superio_inb, superio_outb, superio_exit, outbIndex, outbData, inbData,
        SIO_LD_GPIO, SIO_LDSEL, SIO_UNLOCK_KEY, SIO_LOCK_KEY, EBUSY, hb, hh]
      exact endsWithExit_append _ (by repeat first
        | exact endsWithExit_base
        | apply endsWithExit_cons)
  · exact ⟨by simp [nct610xd_gpio_set, superio_enter, EBUSY, hb, hh],
      fun hfree => by rw [hb] at hfree; exact Bool.noConfusion hfree⟩

theorem balanced_find (addr : Nat) (sio : NctSio) (s : SioState)
    (hh : s.held = false) :
    sessionBalanced s (nct610xd_find addr sio s).2.2 := by
  cases hb : s.regionBusy
  · refine ⟨?_, fun _ => ?_⟩
    · simp [nct610xd_find, superio_enter, superio_select, superio_inb,
        superio_inw, superio_outb, superio_exit, outbIndex, outbData,
        inbData, SIO_CHIPID, SIO_NCT610XD_ID, SIO_LD_GPIO, SIO_LDSEL,
        SIO_GPIO_ENABLE, SIO_UNLOCK_KEY, SIO_LOCK_KEY, EBUSY, EPERM, hb, hh]
      split
      · split <;> rfl
      · rfl
    · simp [nct610xd_find, superio_enter, superio_select, superio_inb,
        superio_inw, superio_outb, superio_exit, outbIndex, outbData,
        inbData, SIO_CHIPID, SIO_NCT610XD_ID, SIO_LD_GPIO, SIO_LDSEL,
        SIO_GPIO_ENABLE, SIO_UNLOCK_KEY, SIO_LOCK_KEY, EBUSY, EPERM, hb, hh]
      split
      · split <;>
          exact endsWithExit_append _ (by repeat first
            | exact endsWithExit_base
            | apply endsWithExit_cons)
      · exact endsWithExit_append _ (by repeat first
          | exact endsWithExit_base
          | apply endsWithExit_cons)
  · exact ⟨by simp [nct610xd_find, superio_enter, EBUSY, hb, hh],
      fun hfree => by rw [hb] at hfree; exact Bool.noConfusion hfree⟩

/-- C1: every operation that may enter the Super-I/O session leaves it
closed on every return path: the region is not held on return, and whenever
`superio_enter` succeeded (the region was free) the trace ends with the
lock-key write and the region release — including the chip-id-mismatch and
enable-verify-failure paths of `nct610xd_find`. -/
theorem C1_session_exit_on_all_paths (s : SioState) (rb off addr : Nat)
    (v : Int) (sio : NctSio) (hh : s.held = false) :
    sessionBalanced s (nct610xd_gpio_get_direction s rb off).2 ∧
    sessionBalanced s (nct610xd_gpio_direction_in s rb off).2 ∧
    sessionBalanced s (nct610xd_gpio_get s rb off).2 ∧
    sessionBalanced s (nct610xd_gpio_direction_out s rb off v).2 ∧
    sessionBalanced s (nct610xd_gpio_set s rb off v) ∧
    sessionBalanced s (nct610xd_find addr sio s).2.2 :=
  ⟨balanced_get_direction s rb off hh, balanced_direction_in s rb off hh,
   balanced_get s rb off hh, balanced_direction_out s rb off v hh,
   balanced_set s rb off v hh, balanced_find addr sio s hh⟩

/-- C1 witness: the enable-verify-failure state at the configured bank. -/
theorem C1_session_exit_on_all_paths_witness :
    sessionBalanced enableStuckSt
      (nct610xd_gpio_get_direction enableStuckSt bankRegbase 0).2 ∧
    sessionBalanced enableStuckSt
      (nct610xd_gpio_direction_in enableStuckSt bankRegbase 0).2 ∧
    sessionBalanced enableStuckSt
      (nct610xd_gpio_get enableStuckSt bankRegbase 0).2 ∧
    sessionBalanced enableStuckSt
      (nct610xd_gpio_direction_out enableStuckSt bankRegbase 0 1).2 ∧
    sessionBalanced enableStuckSt
      (nct610xd_gpio_set enableStuckSt bankRegbase 0 1) ∧
    sessionBalanced enableStuckSt
      (nct610xd_find 0x2e { addr := 0, type := none } enableStuckSt).2.2 :=
  C1_session_exit_on_all_paths enableStuckSt bankRegbase 0 0x2e 1
    { addr := 0, type := none } rfl

/-- C5: discovery tries 0x2e then 0x4e in that order against the 16-bit chip
id read high-byte-first from index 0x20: a match at 0x2e succeeds recording
address 0x2e; a mismatch at 0x2e moves on to 0x4e; if both mismatch the
overall result is `-ENODEV` and nothing is registered.  (Enable registers
fully writable so the enable verification passes on a match.) -/
theorem C5_discovery_order (s2e s4e : SioState)
    (hb2 : s2e.regionBusy = false) (hh2 : s2e.held = false)
    (hw2 : s2e.wmask SIO_GPIO_ENABLE = 255)
    (hb4 : s4e.regionBusy = false) (hh4 : s4e.held = false)
    (hw4 : s4e.wmask SIO_GPIO_ENABLE = 255) :
    (chipId s2e = SIO_NCT610XD_ID →
      nct610xd_gpio_init s2e s4e =
        (0, some { addr := 0x2e, type := some Chips.nct610xd })) ∧
    (chipId s2e ≠ SIO_NCT610XD_ID → chipId s4e = SIO_NCT610XD_ID →
      nct610xd_gpio_init s2e s4e =
        (0, some { addr := 0x4e, type := some Chips.nct610xd })) ∧
    (chipId s2e ≠ SIO_NCT610XD_ID → chipId s4e ≠ SIO_NCT610XD_ID →
      nct610xd_gpio_init s2e s4e = (-ENODEV, none)) := by
  have hw2' : s2e.wmask 48 = 255 := hw2
  have hw4' : s4e.wmask 48 = 255 := hw4
  have h162 := or16_ne (s2e.regs 48 % 256) (mod256_lt _)
  have h164 := or16_ne (s4e.regs 48 % 256) (mod256_lt _)
  refine ⟨fun hid => ?_, fun hid1 hid4 => ?_, fun hid1 hid4 => ?_⟩
  · simp [chipId, superio_inw, outbIndex, inbData, SIO_CHIPID,
      SIO_NCT610XD_ID] at hid
    simp [nct610xd_gpio_init, nct610xd_find, superio_enter, superio_select,
      superio_inb, superio_inw, superio_outb, superio_exit, outbIndex,
      outbData, inbData, SIO_CHIPID, SIO_NCT610XD_ID, SIO_LD_GPIO, SIO_LDSEL,
      SIO_GPIO_ENABLE, SIO_UNLOCK_KEY, SIO_LOCK_KEY, EBUSY, EPERM, ENODEV,
      hb2, hh2, hw2', hid, h162, Nat.xor_self, Nat.and_zero, Nat.or_zero,
      and255_lt _ (mod256_lt _)]
  · simp [chipId, superio_inw, outbIndex, inbData, SIO_CHIPID,
      SIO_NCT610XD_ID] at hid1 hid4
    simp [nct610xd_gpio_init, nct610xd_find, superio_enter, superio_select,
      superio_inb, superio_inw, superio_outb, superio_exit, outbIndex,
      outbData, inbData, SIO_CHIPID, SIO_NCT610XD_ID, SIO_LD_GPIO, SIO_LDSEL,
      SIO_GPIO_ENABLE, SIO_UNLOCK_KEY, SIO_LOCK_KEY, EBUSY, EPERM, ENODEV,
      hb2, hh2, hb4, hh4, hw4', hid1, hid4, h164, Nat.xor_self, Nat.and_zero,
      Nat.or_zero, and255_lt _ (mod256_lt _)]
  · simp [chipId, superio_inw, outbIndex, inbData, SIO_CHIPID,
      SIO_NCT610XD_ID] at hid1 hid4
    simp [nct610xd_gpio_init, nct610xd_find, superio_enter, superio_select,
      superio_inb, superio_inw, superio_outb, superio_exit, outbIndex,
      outbData, inbData, SIO_CHIPID, SIO_NCT610XD_ID, SIO_LD_GPIO, SIO_LDSEL,
      SIO_GPIO_ENABLE, SIO_UNLOCK_KEY, SIO_LOCK_KEY, EBUSY, EPERM, ENODEV,
      hb2, hh2, hb4, hh4, hid1, hid4]

/-- C5 witness: a chip answering 0xd282 at 0x2e is found there; with no chip
at either address the result is `-ENODEV` and nothing is registered. -/
theorem C5_discovery_order_witness :
    (nct610xd_gpio_init chipSt freeSt =
      (0, some { addr := 0x2e, type := some Chips.nct610xd })) ∧
    (nct610xd_gpio_init freeSt chipSt =
      (0, some { addr := 0x4e, type := some Chips.nct610xd })) ∧
    (nct610xd_gpio_init freeSt freeSt = (-ENODEV, none)) :=
  ⟨(C5_discovery_order chipSt freeSt rfl rfl rfl rfl rfl rfl).1 (by decide),
   (C5_discovery_order freeSt chipSt rfl rfl rfl rfl rfl rfl).2.1 (by decide)
     (by decide),
   (C5_discovery_order freeSt freeSt rfl rfl rfl rfl rfl rfl).2.2 (by decide)
     (by decide)⟩

/-- C6: `superio_enter` returns `-EBUSY` without touching the hardware when
exclusive acquisition of the region fails, and on success acquires the
region, writes the unlock key 0x87 to the index port exactly twice in
succession, and returns 0. -/
theorem C6_enter_busy_or_unlock (s : SioState) :
    (s.regionBusy = true ∨ s.held = true → superio_enter s = (-EBUSY, s)) ∧
    (s.regionBusy = false → s.held = false →
      (superio_enter s).1 = 0 ∧ (superio_enter s).2.held = true ∧
      (superio_enter s).2.events =
        s.events ++ [PortEvent.acquireRegion,
          PortEvent.writeIndex SIO_UNLOCK_KEY,
          PortEvent.writeIndex SIO_UNLOCK_KEY]) := by
  refine ⟨fun h => ?_, fun hb hh => ?_⟩
  · rcases h with h | h <;>
      simp [superio_enter, h]
  · refine ⟨?_, ?_, ?_⟩ <;>
      simp [superio_enter, outbIndex, SIO_UNLOCK_KEY, hb, hh]

/-- C6 witness: the busy state is refused untouched; the free state yields 0
with the key written twice. -/
theorem C6_enter_busy_or_unlock_witness :
    superio_enter busySt = (-EBUSY, busySt) ∧
    (superio_enter freeSt).1 = 0 ∧ (superio_enter freeSt).2.held = true ∧
    (superio_enter freeSt).2.events =
      freeSt.events ++ [PortEvent.acquireRegion,
        PortEvent.writeIndex SIO_UNLOCK_KEY,
        PortEvent.writeIndex SIO_UNLOCK_KEY] :=
  ⟨(C6_enter_busy_or_unlock busySt).1 (Or.inl rfl),
   (C6_enter_busy_or_unlock freeSt).2 rfl rfl⟩

/-- C7 counterexample: the claim says every pin operation, `setValue`
included, reports a `superio_enter` failure to its caller; but
`nct610xd_gpio_set` is `void` — at a busy state its caller receives no
error value at all. -/
theorem C7_counterexample :
    pinOpResult PinOp.setValue busySt bankRegbase 0 1 ≠ some (-EBUSY) := by
  decide

/-- C7 as amended: the four `int`-returning pin operations surface the
`-EBUSY` from a failed `superio_enter` to their caller; `nct610xd_gpio_set`
(C return type `void`) surfaces nothing and discards the error. -/
theorem C7_errors_surfaced_amended (s : SioState) (rb off : Nat) (v : Int)
    (hb : s.regionBusy = true) :
    pinOpResult PinOp.getDirection s rb off v = some (-EBUSY) ∧
    pinOpResult PinOp.directionIn s rb off v = some (-EBUSY) ∧
    pinOpResult PinOp.getValue s rb off v = some (-EBUSY) ∧
    pinOpResult PinOp.directionOut s rb off v = some (-EBUSY) ∧
    pinOpResult PinOp.setValue s rb off v = none := by
  refine ⟨?_, ?_, ?_, ?_, rfl⟩ <;>
    simp [pinOpResult, nct610xd_gpio_get_direction, nct610xd_gpio_direction_in,
      nct610xd_gpio_get, nct610xd_gpio_direction_out, superio_enter, EBUSY,
      hb]

/-- C7 amended-claim witness at the busy state. -/
theorem C7_errors_surfaced_amended_witness :
    pinOpResult PinOp.getDirection busySt bankRegbase 0 1 = some (-EBUSY) ∧
    pinOpResult PinOp.directionIn busySt bankRegbase 0 1 = some (-EBUSY) ∧
    pinOpResult PinOp.getValue busySt bankRegbase 0 1 = some (-EBUSY) ∧
    pinOpResult PinOp.directionOut busySt bankRegbase 0 1 = some (-EBUSY) ∧
    pinOpResult PinOp.setValue busySt bankRegbase 0 1 = none :=
  C7_errors_surfaced_amended busySt bankRegbase 0 1 rfl

/-- C8: on the configured bank, after `nct610xd_gpio_direction_in(p)` a
`nct610xd_gpio_get_direction(p)` reports input (the direction bit reads
nonzero), and after `nct610xd_gpio_direction_out(p, level)` it reports
output (zero), for every level — in the model where a direction-register
read returns the last value written. -/
theorem C8_direction_roundtrip (s : SioState) (off : Nat) (v : Int)
    (hoff : off < 8) (hb : s.regionBusy = false) (hh : s.held = false)
    (hw : s.wmask (gpio_dir bankRegbase) = 255) :
    (nct610xd_gpio_get_direction
        (nct610xd_gpio_direction_in s bankRegbase off).2 bankRegbase off).1 ≠
      0 ∧
    (nct610xd_gpio_get_direction
        (nct610xd_gpio_direction_out s bankRegbase off v).2 bankRegbase
        off).1 = 0 := by
  have hw' : s.wmask 240 = 255 := hw
  constructor
  · simp [nct610xd_gpio_direction_in, nct610xd_gpio_get_direction,
      superio_enter, superio_select, superio_inb, superio_outb, superio_exit,
      outbIndex, outbData, inbData, gpio_dir, gpio_data, bankRegbase,
      SIO_LD_GPIO, SIO_LDSEL, SIO_UNLOCK_KEY, SIO_LOCK_KEY, EBUSY, hb, hh,
      hw', Nat.xor_self, Nat.and_zero, Nat.or_zero,
      and255_lt _ (mod256_lt _)]
    exact bit_set_ne _ (mod256_lt _) off hoff
  · simp [nct610xd_gpio_direction_out, nct610xd_gpio_get_direction,
      superio_enter, superio_select, superio_inb, superio_outb, superio_exit,
      outbIndex, outbData, inbData, gpio_dir, gpio_data, bankRegbase,
      SIO_LD_GPIO, SIO_LDSEL, SIO_UNLOCK_KEY, SIO_LOCK_KEY, EBUSY, hb, hh,
      hw', Nat.xor_self, Nat.and_zero, Nat.or_zero,
      and255_lt _ (mod256_lt _)]
    exact bit_clear_eq _ (mod256_lt _) off hoff

/-- C8 witness: pin 2 of the all-zero free state. -/
theorem C8_direction_roundtrip_witness :
    (nct610xd_gpio_get_direction
        (nct610xd_gpio_direction_in freeSt bankRegbase 2).2 bankRegbase 2).1 ≠
      0 ∧
    (nct610xd_gpio_get_direction
        (nct610xd_gpio_direction_out freeSt bankRegbase 2 0).2 bankRegbase
        2).1 = 0 :=
  C8_direction_roundtrip freeSt 2 0 (by decide) rfl rfl rfl

/-- C9: at a chip whose id matches but whose GPIO-enable bit 0x10 does not
stick, `nct610xd_find` selects the GPIO logical device, reads register 0x30,
writes it back with bit 0x10 ORed in, reads it back to verify, and aborts
with the error value `EPERM` — assigned directly as a positive 1, not in the
negated-errno convention used elsewhere — after exiting the session. -/
theorem C9_enable_verify_eperm :
    (nct610xd_find 0x2e { addr := 0, type := none } enableStuckSt).1 =
      EPERM ∧
    EPERM = 1 ∧ 0 < EPERM ∧
    regWritesFrom 0
        (nct610xd_find 0x2e { addr := 0, type := none }
          enableStuckSt).2.2.events =
      [(SIO_LDSEL, SIO_LD_GPIO), (SIO_GPIO_ENABLE, 0x10)] ∧
    (nct610xd_find 0x2e { addr := 0, type := none }
        enableStuckSt).2.2.events =
      [PortEvent.acquireRegion, PortEvent.writeIndex SIO_UNLOCK_KEY,
       PortEvent.writeIndex SIO_UNLOCK_KEY,
       PortEvent.writeIndex SIO_CHIPID, PortEvent.readData 0xd2,
       PortEvent.writeIndex (SIO_CHIPID + 1), PortEvent.readData 0x82,
       PortEvent.writeIndex SIO_CHIPID, PortEvent.readData 0xd2,
       PortEvent.writeIndex (SIO_CHIPID + 1), PortEvent.readData 0x82,
       PortEvent.writeIndex SIO_LDSEL, PortEvent.writeData SIO_LD_GPIO,
       PortEvent.writeIndex SIO_GPIO_ENABLE, PortEvent.readData 0,
       PortEvent.writeIndex SIO_GPIO_ENABLE, PortEvent.writeData 0x10,
       PortEvent.writeIndex SIO_GPIO_ENABLE, PortEvent.readData 0,
       PortEvent.writeIndex SIO_LOCK_KEY, PortEvent.releaseRegion] ∧
    (nct610xd_find 0x2e { addr := 0, type := none }
        enableStuckSt).2.2.held = false := by
  decide

/-- C10: `nct610xd_gpio_get` normalizes its result to 0 or 1, while
`nct610xd_gpio_get_direction` returns the raw masked byte: for an input pin
at offset `p` it returns `2 ^ p`, which differs from 1 whenever `p > 0`. -/
theorem C10_get_normalized_direction_raw (s : SioState) (p : Nat)
    (hp : p < 8) (hb : s.regionBusy = false) (hh : s.held = false) :
    ((nct610xd_gpio_get s bankRegbase p).1 = 0 ∨
      (nct610xd_gpio_get s bankRegbase p).1 = 1) ∧
    ((s.regs (gpio_dir bankRegbase) % 256).testBit p = true →
      (nct610xd_gpio_get_direction s bankRegbase p).1 = Int.ofNat (2 ^ p)) ∧
    (0 < p → Int.ofNat (2 ^ p) ≠ 1) := by
  refine ⟨?_, fun hbit => ?_, fun hp0 => ?_⟩
  · simp [nct610xd_gpio_get, superio_enter, superio_select, superio_inb,
      superio_exit, outbIndex, outbData, inbData, gpio_dir, gpio_data,
      bankRegbase, SIO_LD_GPIO, SIO_LDSEL, SIO_UNLOCK_KEY, SIO_LOCK_KEY,
      EBUSY, hb, hh]
    rcases Decidable.em (s.regs 241 % 256 &&& 1 <<< p = 0) with hc | hc
    · left; simp [hc]
    · right; simp [hc]
  · have hbit' : (s.regs 240 % 256).testBit p = true := hbit
    simp [nct610xd_gpio_get_direction, superio_enter, superio_select,
      superio_inb, superio_exit, outbIndex, outbData, inbData, gpio_dir,
      gpio_data, bankRegbase, SIO_LD_GPIO, SIO_LDSEL, SIO_UNLOCK_KEY,
      SIO_LOCK_KEY, EBUSY, hb, hh,
      testBit_and_pow _ (mod256_lt _) p hp hbit']
  · have h1 : ∀ q < 8, 0 < q → (2 : Nat) ^ q ≠ 1 := by decide
    exact fun heq => h1 p hp hp0 (Int.ofNat.inj heq)

/-- C10 witness: pin 3 with its direction bit set reads direction 8 (not 1),
and a value read is 0 or 1. -/
theorem C10_get_normalized_direction_raw_witness :
    (((nct610xd_gpio_get chipSt bankRegbase 3).1 = 0 ∨
      (nct610xd_gpio_get chipSt bankRegbase 3).1 = 1)) ∧
    ((chipSt.regs (gpio_dir bankRegbase) % 256).testBit 3 = true →
      (nct610xd_gpio_get_direction chipSt bankRegbase 3).1 =
        Int.ofNat (2 ^ 3)) ∧
    (0 < 3 → Int.ofNat (2 ^ 3) ≠ 1) :=
  C10_get_normalized_direction_raw chipSt 3 (by decide) rfl rfl
